import Mathlib

/-!
Shallow embedding of `src/backend/routes/consultation.py` (Doceasy):
the consultation lifecycle manager with its three HTTP handlers
`join_consultation`, `complete_consultation` and `update_consultation_notes`,
modelled as pure functions over an explicit document-store state.

Modelling conventions:
* Mongo `ObjectId` values and `str(...)` of ids are modelled as plain `String`s
  (`str` on a string is the identity, `ObjectId` a key-normalisation).
* Timestamps (`datetime`) are seconds since an arbitrary epoch, as `Int`;
  `total_seconds() / 60` becomes exact division in `ℚ`.
* A collection is a list of documents; `find_one` is `List.find?` (first match),
  `update_one` updates the first matching document, `insert_one` appends, with
  the freshly generated document id passed in as an explicit `newId` argument.
* Python truthiness of an optional string field (`if not video_call_id`) is
  `pyTruthy`: `None` and `""` are falsy.
-/

namespace Doceasy

/-- Python truthiness of an optional string field: `None` and `""` are falsy. -/
def pyTruthy : Option String → Bool
  | none => false
  | some s => s ≠ ""

/-- An `appointments` document, with the fields `join_consultation` reads or writes. -/
structure Appointment where
  id : String
  patient_id : String
  doctor_id : String
  doctor_name : String
  patient_name : String
  appointment_date : Int
  status : String
  is_immediate : Bool
  consultation_type : Option String
  video_call_id : Option String
  consultation_id : Option String
  last_updated : Option Int
  deriving DecidableEq, Repr

/-- A `consultations` document, exactly the fields the source creates and mutates. -/
structure Consultation where
  id : String
  appointment_id : String
  patient_id : String
  doctor_id : String
  doctor_name : String
  patient_name : String
  scheduled_time : Int
  start_time : Int
  end_time : Option Int
  status : String
  notes : String
  consultation_type : String
  video_call_id : Option String
  is_immediate : Bool
  authorized_users : List String
  completed_at : Option Int
  deriving DecidableEq, Repr

/-- A `security_logs` document, as written by the resume-path authorization gate. -/
structure SecurityLog where
  event : String
  user_id : String
  user_role : String
  consultation_id : String
  timestamp : Int
  deriving DecidableEq, Repr

/-- The document store: the three collections the consultation routes touch. -/
structure DB where
  appointments : List Appointment
  consultations : List Consultation
  security_logs : List SecurityLog
  deriving DecidableEq, Repr

/-- Mongo `update_one`: apply `f` to the first document satisfying `p`. -/
def updateFirst (p : α → Bool) (f : α → α) : List α → List α
  | [] => []
  | x :: xs => if p x then f x :: xs else x :: updateFirst p f xs

/-- `time_diff_minutes = (appointment_time - current_time).total_seconds() / 60`,
with both datetimes in seconds. -/
def time_diff_minutes (appointment_time current_time : Int) : ℚ :=
  ((appointment_time - current_time : Int) : ℚ) / 60

/-- The time-window policy's rejection condition, exactly the source's
`not is_immediate and (time_diff_minutes > 15 or time_diff_minutes < -30)`. -/
def outside_window (appointment_time current_time : Int) (is_immediate : Bool) : Prop :=
  is_immediate = false ∧
    (time_diff_minutes appointment_time current_time > 15 ∨
     time_diff_minutes appointment_time current_time < -30)

instance (appointment_time current_time : Int) (is_immediate : Bool) :
    Decidable (outside_window appointment_time current_time is_immediate) :=
  inferInstanceAs (Decidable (_ ∧ (_ ∨ _)))

/-- The response of `join_consultation`, one constructor per `return` statement. -/
inductive JoinResult where
  | notFound : JoinResult
  | notReady (status : String) : JoinResult
  | forbiddenCreate : JoinResult
  | outsideWindow (scheduled_time current_time : Int)
      (minutes_until_window : Option ℚ) : JoinResult
  | created (consultation_id video_call_id consultation_type : String)
      (is_immediate : Bool) (patient_id doctor_id user_role : String) : JoinResult
  | forbiddenResume : JoinResult
  | notActive (status : String) (end_time : Option Int) : JoinResult
  | resumed (consultation_id video_call_id consultation_type : String)
      (start_time scheduled_time : Int) (is_immediate : Bool)
      (patient_id doctor_id user_role : String) : JoinResult
  deriving DecidableEq, Repr

/-- HTTP status code of each `join_consultation` response. -/
def joinStatus : JoinResult → Nat
  | .notFound => 404
  | .notReady _ => 403
  | .forbiddenCreate => 403
  | .outsideWindow _ _ _ => 403
  | .created _ _ _ _ _ _ _ => 201
  | .forbiddenResume => 403
  | .notActive _ _ => 403
  | .resumed _ _ _ _ _ _ _ _ _ => 200

/-- `GET /api/consultations/join/<consultation_id>`.  `newId` is the document id
Mongo generates for `insert_one` on the create path. -/
def join_consultation (db : DB) (consultation_id user_id user_role : String)
    (now : Int) (newId : String) : JoinResult × DB :=
  match db.consultations.find? (fun c => c.id == consultation_id) with
  | none =>
    match db.appointments.find? (fun a => a.id == consultation_id) with
    | none => (.notFound, db)
    | some appointment =>
      if appointment.status ≠ "confirmed" then
        (.notReady appointment.status, db)
      else if (user_role = "doctor" ∧ user_id ≠ appointment.doctor_id) ∨
              (user_role = "patient" ∧ user_id ≠ appointment.patient_id) then
        (.forbiddenCreate, db)
      else
        let is_immediate := appointment.is_immediate
        let appointment_time := appointment.appointment_date
        let tdm := time_diff_minutes appointment_time now
        if outside_window appointment_time now is_immediate then
          (.outsideWindow appointment_time now
            (if tdm > 15 then some (tdm - 15) else none), db)
        else
          let video_call_id :=
            if pyTruthy appointment.video_call_id then appointment.video_call_id.getD ""
            else "call_" ++ appointment.id
          let apps1 :=
            if pyTruthy appointment.video_call_id then db.appointments
            else updateFirst (fun a => a.id == appointment.id)
                   (fun a => { a with video_call_id := some video_call_id })
                   db.appointments
          let consultation_data : Consultation :=
            { id := newId
              appointment_id := appointment.id
              patient_id := appointment.patient_id
              doctor_name := appointment.doctor_name
              patient_name := appointment.patient_name
              doctor_id := appointment.doctor_id
              scheduled_time := appointment.appointment_date
              start_time := now
              end_time := none
              status := "active"
              notes := ""
              consultation_type := appointment.consultation_type.getD "video"
              video_call_id := some video_call_id
              is_immediate := is_immediate
              authorized_users := [appointment.doctor_id, appointment.patient_id]
              completed_at := none }
          let apps2 := updateFirst (fun a => a.id == appointment.id)
            (fun a => { a with consultation_id := some newId, last_updated := some now })
            apps1
          (.created newId video_call_id consultation_data.consultation_type is_immediate
             appointment.patient_id appointment.doctor_id user_role,
           { db with appointments := apps2
                     consultations := db.consultations ++ [consultation_data] })
  | some consultation =>
    if user_id ∉ [consultation.patient_id, consultation.doctor_id] then
      (.forbiddenResume,
       { db with security_logs := db.security_logs ++
           [{ event := "unauthorized_consultation_access", user_id := user_id,
              user_role := user_role, consultation_id := consultation_id,
              timestamp := now }] })
    else if consultation.status ≠ "active" then
      (.notActive consultation.status consultation.end_time, db)
    else
      let video_call_id :=
        if pyTruthy consultation.video_call_id then consultation.video_call_id.getD ""
        else "call_" ++ consultation_id
      let db1 :=
        if pyTruthy consultation.video_call_id then db
        else
          let cons1 := updateFirst (fun c => c.id == consultation_id)
            (fun c => { c with video_call_id := some video_call_id }) db.consultations
          { db with consultations := cons1 }
      (.resumed consultation.id video_call_id consultation.consultation_type
         consultation.start_time consultation.scheduled_time consultation.is_immediate
         consultation.patient_id consultation.doctor_id user_role, db1)

/-- The response of `complete_consultation`. -/
inductive CompleteResult where
  | forbidden : CompleteResult
  | notFoundOrUnauthorized : CompleteResult
  | ok : CompleteResult
  deriving DecidableEq, Repr

/-- HTTP status code of each `complete_consultation` response. -/
def completeStatus : CompleteResult → Nat
  | .forbidden => 403
  | .notFoundOrUnauthorized => 404
  | .ok => 200

/-- The `$set` patch applied by `complete_consultation`. -/
def completePatch (now : Int) (c : Consultation) : Consultation :=
  { c with status := "completed", completed_at := some now }

/-- The compound filter of `complete_consultation`: `_id` and `doctor_id` both match. -/
def completeFilter (consultation_id user_id : String) (c : Consultation) : Bool :=
  c.id == consultation_id && c.doctor_id == user_id

/-- `PUT /api/consultations/<consultation_id>/complete`.  Mongo's
`modified_count` is 0 when no document matched, or when the matched document
is already identical to its patched form. -/
def complete_consultation (db : DB) (consultation_id user_id user_role : String)
    (now : Int) : CompleteResult × DB :=
  if user_role ≠ "doctor" then (.forbidden, db)
  else
    let newConsultations :=
      updateFirst (completeFilter consultation_id user_id) (completePatch now)
        db.consultations
    let modified_count : Nat :=
      match db.consultations.find? (completeFilter consultation_id user_id) with
      | none => 0
      | some c => if completePatch now c = c then 0 else 1
    let db1 := { db with consultations := newConsultations }
    if modified_count = 0 then (.notFoundOrUnauthorized, db1)
    else (.ok, db1)

/-- The response of `update_consultation_notes`. -/
inductive NotesResult where
  | notFound : NotesResult
  | forbidden : NotesResult
  | ok : NotesResult
  deriving DecidableEq, Repr

/-- HTTP status code of each `update_consultation_notes` response. -/
def notesStatus : NotesResult → Nat
  | .notFound => 404
  | .forbidden => 403
  | .ok => 200

/-- `PUT /api/consultations/<consultation_id>/notes`.  `body_notes` is the
optional `notes` key of the JSON body; `request.json.get('notes', '')`
defaults it to `""`. -/
def update_consultation_notes (db : DB) (consultation_id user_id user_role : String)
    (body_notes : Option String) : NotesResult × DB :=
  let notes := body_notes.getD ""
  match db.consultations.find? (fun c => c.id == consultation_id) with
  | none => (.notFound, db)
  | some consultation =>
    if user_role = "doctor" ∧ consultation.doctor_id ≠ user_id then (.forbidden, db)
    else if user_role = "patient" ∧ consultation.patient_id ≠ user_id then (.forbidden, db)
    else
      let cons1 := updateFirst (fun c => c.id == consultation_id)
        (fun c => { c with notes := notes }) db.consultations
      (.ok, { db with consultations := cons1 })

/-! ### Helper lemmas about the store primitives -/

theorem updateFirst_of_find?_eq_none {α : Type} (p : α → Bool) (f : α → α) :
    ∀ l : List α, l.find? p = none → updateFirst p f l = l := by
  intro l
  induction l with
  | nil => intro _; rfl
  | cons x xs ih =>
    intro h
    by_cases hp : p x
    · simp [List.find?_cons_of_pos, hp] at h
    · rw [List.find?_cons_of_neg _ (by simpa using hp)] at h
      simp [updateFirst, hp, ih h]

theorem find?_decomp {α : Type} (p : α → Bool) (f : α → α) :
    ∀ (l : List α) (a : α), l.find? p = some a →
      ∃ l1 l2, l = l1 ++ a :: l2 ∧ (∀ x ∈ l1, p x = false) ∧
        updateFirst p f l = l1 ++ f a :: l2 := by
  intro l
  induction l with
  | nil => intro a h; simp [List.find?] at h
  | cons x xs ih =>
    intro a h
    by_cases hp : p x
    · rw [List.find?_cons_of_pos _ (by simpa using hp)] at h
      obtain rfl : x = a := by injection h
      exact ⟨[], xs, by simp, by simp, by simp [updateFirst, hp]⟩
    · rw [List.find?_cons_of_neg _ (by simpa using hp)] at h
      obtain ⟨l1, l2, hl, hl1, hu⟩ := ih a h
      refine ⟨x :: l1, l2, by simp [hl], ?_, by simp [updateFirst, hp, hu]⟩
      intro y hy
      rcases List.mem_cons.mp hy with rfl | hy
      · simpa using hp
      · exact hl1 y hy

theorem find?_updateFirst {α : Type} (p : α → Bool) (f : α → α)
    (hf : ∀ x, p (f x) = p x) :
    ∀ l : List α, (updateFirst p f l).find? p = (l.find? p).map f := by
  intro l
  induction l with
  | nil => rfl
  | cons x xs ih =>
    by_cases hp : p x
    · simp [updateFirst, hp, List.find?_cons, hf]
    · simp [updateFirst, hp, List.find?_cons, ih]

/-! ### Claims -/

/-- C6: the time-window policy, as a pure function of scheduled time, current
time and the immediacy flag, allows the join exactly when `is_immediate` is
true or the signed difference Δ = scheduledTime - now (in minutes) satisfies
-30 ≤ Δ ≤ 15; in particular Δ = +15 min (900 s) is allowed, +15 min + 1 s is
rejected, -30 min is allowed, -30 min - 1 s is rejected, and any offset with
`is_immediate = true` is allowed. -/
theorem C6_time_window_policy :
    (∀ (s n : Int) (i : Bool),
        ¬ outside_window s n i ↔
          (i = true ∨ (-30 ≤ time_diff_minutes s n ∧ time_diff_minutes s n ≤ 15))) ∧
    ¬ outside_window 900 0 false ∧
    outside_window 901 0 false ∧
    ¬ outside_window (-1800) 0 false ∧
    outside_window (-1801) 0 false ∧
    (∀ s n : Int, ¬ outside_window s n true) := by
  refine ⟨?_, by norm_num [outside_window, time_diff_minutes],
    by norm_num [outside_window, time_diff_minutes],
    by norm_num [outside_window, time_diff_minutes],
    by norm_num [outside_window, time_diff_minutes], fun s n => by
    simp [outside_window]⟩
  intro s n i
  unfold outside_window
  cases i
  · simp only [not_and, not_or, not_lt, Bool.false_eq_true, false_or,
      forall_const]
    exact and_comm
  · simp

/-- C8: when a non-immediate Join on the Create path is rejected with
OutsideWindow, the error payload reports the scheduled time and the current
time, and carries `minutes_until_window = Δ - 15` exactly when Δ > 15; the
minutes value is `none` exactly when the rejection is for joining too late
(Δ < -30). -/
theorem C8_outside_window_diagnostic (db : DB) (cid uid role : String)
    (now : Int) (newId : String) (st ct : Int) (m : Option ℚ)
    (h : (join_consultation db cid uid role now newId).1 =
          JoinResult.outsideWindow st ct m) :
    ct = now ∧
    (m = some (time_diff_minutes st now - 15) ↔ time_diff_minutes st now > 15) ∧
    (m = none ↔ time_diff_minutes st now < -30) := by
  simp only [join_consultation] at h
  split at h
  · split at h
    · simp at h
    · rename_i appointment _
      split_ifs at h with h1 h2 h3 h4
      · obtain ⟨rfl, rfl, rfl⟩ := h
        refine ⟨rfl, by simp [h4], ?_⟩
        simp only [reduceCtorEq, false_iff, not_lt]
        linarith
      · obtain ⟨rfl, rfl, rfl⟩ := h
        obtain ⟨-, hwin⟩ := h3
        rcases hwin with hw | hw
        · exact absurd hw h4
        · refine ⟨rfl, ?_, by simp [hw]⟩
          simp only [reduceCtorEq, false_iff, not_lt]
          linarith
  · split_ifs at h

/-- Classifier for the Create-path error responses of `join_consultation`. -/
def isCreateError : JoinResult → Prop
  | .notFound => True
  | .notReady _ => True
  | .forbiddenCreate => True
  | .outsideWindow _ _ _ => True
  | _ => False

/-- C9: whenever Join on the Create path returns an error (NotFound, NotReady,
Forbidden or OutsideWindow), the document store is unchanged: all
validation precedes the first write. -/
theorem C9_create_errors_leave_store_unchanged (db : DB)
    (cid uid role : String) (now : Int) (newId : String)
    (h : isCreateError (join_consultation db cid uid role now newId).1) :
    (join_consultation db cid uid role now newId).2 = db := by
  rcases hj : join_consultation db cid uid role now newId with ⟨r, db2⟩
  rw [hj] at h
  show db2 = db
  simp only [join_consultation] at hj
  split at hj
  · split at hj
    · injection hj with h1 h2; exact h2.symm
    · split_ifs at hj <;>
        (injection hj with h1 h2
         first
         | exact h2.symm
         | (rw [← h1] at h; simp [isCreateError] at h))
  · split_ifs at hj <;>
      (injection hj with h1 h2
       first
       | exact h2.symm
       | (rw [← h1] at h; simp [isCreateError] at h))

/-! ### Concrete fixtures for witnesses and counterexamples -/

/-- An active consultation bound to doctor `d1` and patient `p1`. -/
def consActive : Consultation :=
  { id := "c1", appointment_id := "a1", patient_id := "p1", doctor_id := "d1",
    doctor_name := "Dr", patient_name := "Pat", scheduled_time := 0, start_time := 0,
    end_time := none, status := "active", notes := "old",
    consultation_type := "video", video_call_id := some "call_a1",
    is_immediate := false, authorized_users := ["d1", "p1"], completed_at := none }

/-- A completed consultation bound to doctor `d1` and patient `p1`. -/
def consCompleted : Consultation :=
  { consActive with id := "c2", status := "completed", end_time := some 100 }

/-- A store holding the two sample consultations and nothing else. -/
def consDB : DB :=
  { appointments := [], consultations := [consActive, consCompleted], security_logs := [] }

/-- An empty store. -/
def emptyDB : DB := { appointments := [], consultations := [], security_logs := [] }

/-- C8 witness state: a confirmed, non-immediate appointment scheduled one hour
after the current time. -/
def lateApp : Appointment :=
  { id := "a1", patient_id := "p1", doctor_id := "d1", doctor_name := "Dr",
    patient_name := "Pat", appointment_date := 3600, status := "confirmed",
    is_immediate := false, consultation_type := some "video", video_call_id := none,
    consultation_id := none, last_updated := none }

/-- The store for the C8 witness. -/
def lateDB : DB := { appointments := [lateApp], consultations := [], security_logs := [] }

/-- Witness for C8: joining one hour early yields OutsideWindow reporting the
scheduled time, the current time and 45 minutes until the window opens. -/
theorem C8_outside_window_diagnostic_witness :
    (0 : Int) = 0 ∧
    (some (45 : ℚ) = some (time_diff_minutes 3600 0 - 15) ↔
      time_diff_minutes 3600 0 > 15) ∧
    (some (45 : ℚ) = none ↔ time_diff_minutes 3600 0 < -30) :=
  C8_outside_window_diagnostic lateDB "a1" "d1" "doctor" 0 "c1" 3600 0 (some 45)
    (by norm_num [join_consultation, lateDB, lateApp, outside_window,
          time_diff_minutes, List.find?]
        simp)

/-- Witness for C9: a Join on an id found in neither collection returns NotFound
and leaves the empty store unchanged. -/
theorem C9_create_errors_witness :
    (join_consultation emptyDB "zzz" "u" "doctor" 0 "c1").2 = emptyDB :=
  C9_create_errors_leave_store_unchanged emptyDB "zzz" "u" "doctor" 0 "c1"
    (by show True; trivial)

/-- C2 counterexample: a caller with role `admin` whose id (`x9`) is bound to
neither party is not rejected by UpdateNotes: the call succeeds and the stored
notes are overwritten, contradicting "every other caller, regardless of role,
receives Forbidden and the consultation's notes are unchanged". -/
theorem C2_admin_bypasses_notes_authorization :
    (update_consultation_notes consDB "c1" "x9" "admin" (some "hacked")).1 =
      NotesResult.ok ∧
    (update_consultation_notes consDB "c1" "x9" "admin" (some "hacked")).1 ≠
      NotesResult.forbidden ∧
    ((update_consultation_notes consDB "c1" "x9" "admin"
        (some "hacked")).2.consultations.map (fun c => c.notes)) = ["hacked", "old"] := by
  refine ⟨rfl, by decide, rfl⟩

/-- C2 (amended): UpdateNotes rejects a doctor-role caller who is not the bound
doctor and a patient-role caller who is not the bound patient (Forbidden, store
unchanged); any caller passing those two checks — the bound doctor, the bound
patient, or any caller whose role is neither `doctor` nor `patient` — gets the
notes overwritten with the request value. -/
theorem C2_notes_authorization (db : DB) (cid uid role : String)
    (body : Option String) (c : Consultation)
    (hfind : db.consultations.find? (fun x => x.id == cid) = some c) :
    (role = "doctor" ∧ c.doctor_id ≠ uid →
       update_consultation_notes db cid uid role body = (NotesResult.forbidden, db)) ∧
    (role = "patient" ∧ c.patient_id ≠ uid →
       update_consultation_notes db cid uid role body = (NotesResult.forbidden, db)) ∧
    (¬(role = "doctor" ∧ c.doctor_id ≠ uid) → ¬(role = "patient" ∧ c.patient_id ≠ uid) →
       ∃ l1 l2, db.consultations = l1 ++ c :: l2 ∧
         (update_consultation_notes db cid uid role body).1 = NotesResult.ok ∧
         (update_consultation_notes db cid uid role body).2.consultations =
           l1 ++ { c with notes := body.getD "" } :: l2) := by
  by_cases h1 : role = "doctor" ∧ c.doctor_id ≠ uid
  · have hres : update_consultation_notes db cid uid role body =
        (NotesResult.forbidden, db) := by
      simp only [update_consultation_notes, hfind]
      rw [if_pos h1]
    exact ⟨fun _ => hres, fun _ => hres, fun hn _ => absurd h1 hn⟩
  · by_cases h2 : role = "patient" ∧ c.patient_id ≠ uid
    · have hres : update_consultation_notes db cid uid role body =
          (NotesResult.forbidden, db) := by
        simp only [update_consultation_notes, hfind]
        rw [if_neg h1, if_pos h2]
      exact ⟨fun _ => hres, fun _ => hres, fun _ hn => absurd h2 hn⟩
    · obtain ⟨l1, l2, hl, -, hu⟩ :=
        find?_decomp (fun x => x.id == cid) (fun x => { x with notes := body.getD "" })
          db.consultations c hfind
      have hres : update_consultation_notes db cid uid role body =
          (NotesResult.ok,
           { db with consultations := l1 ++ { c with notes := body.getD "" } :: l2 }) := by
        simp only [update_consultation_notes, hfind]
        rw [if_neg h1, if_neg h2]
        simp only [hu]
      exact ⟨fun hd => absurd hd h1, fun hp => absurd hp h2,
        fun _ _ => ⟨l1, l2, hl, by rw [hres], by rw [hres]⟩⟩

/-- Witness for the amended C2: a doctor-role caller who is not the bound doctor
is rejected and the store is unchanged. -/
theorem C2_notes_authorization_witness :
    update_consultation_notes consDB "c1" "x9" "doctor" (some "n") =
      (NotesResult.forbidden, consDB) :=
  (C2_notes_authorization consDB "c1" "x9" "doctor" (some "n") consActive rfl).1
    ⟨rfl, by decide⟩

/-- C4 counterexample: Complete called by the bound patient (`p1`, role
`patient`) returns Forbidden (403), not the merged NotFoundOrUnauthorized (404)
the claim requires. -/
theorem C4_patient_complete_gets_forbidden :
    complete_consultation consDB "c1" "p1" "patient" 0 =
      (CompleteResult.forbidden, consDB) ∧
    CompleteResult.forbidden ≠ CompleteResult.notFoundOrUnauthorized ∧
    completeStatus CompleteResult.forbidden = 403 ∧
    completeStatus CompleteResult.notFoundOrUnauthorized = 404 :=
  ⟨rfl, by decide, rfl, rfl⟩

/-- C4 (amended): Complete called by any non-doctor principal — in particular
the bound patient — returns Forbidden; Complete called by a doctor for whom no
consultation matches both the id and the ownership filter — in particular a
doctor who does not own it — returns NotFoundOrUnauthorized; in both cases the
store, hence the consultation's status, is unchanged. -/
theorem C4_complete_ownership (db : DB) (cid uid role : String) (now : Int) :
    (role ≠ "doctor" →
       complete_consultation db cid uid role now = (CompleteResult.forbidden, db)) ∧
    (role = "doctor" → db.consultations.find? (completeFilter cid uid) = none →
       complete_consultation db cid uid role now =
         (CompleteResult.notFoundOrUnauthorized, db)) := by
  constructor
  · intro hrole
    unfold complete_consultation
    rw [if_pos hrole]
  · intro hrole hnone
    subst hrole
    unfold complete_consultation
    rw [if_neg (by simp), hnone,
      updateFirst_of_find?_eq_none (completeFilter cid uid) (completePatch now)
        db.consultations hnone]
    rfl

/-- Witness for the amended C4: the bound patient gets Forbidden; a doctor who
does not own the consultation gets NotFoundOrUnauthorized; the store is
unchanged both times. -/
theorem C4_complete_ownership_witness :
    complete_consultation consDB "c1" "p1" "patient" 0 =
      (CompleteResult.forbidden, consDB) ∧
    complete_consultation consDB "c1" "d2" "doctor" 0 =
      (CompleteResult.notFoundOrUnauthorized, consDB) :=
  ⟨(C4_complete_ownership consDB "c1" "p1" "patient" 0).1 (by decide),
   (C4_complete_ownership consDB "c1" "d2" "doctor" 0).2 rfl rfl⟩

/-- C3: with role doctor, the consultation is updated to `status = completed`,
`completed_at = now` only when a document matches both the id and
`doctor_id = caller`; zero matching documents — whether the id is absent or the
doctor does not own it — produce the single merged NotFoundOrUnauthorized (404)
and leave the store unchanged. -/
theorem C3_complete_requires_compound_match (db : DB) (cid uid : String) (now : Int) :
    (db.consultations.find? (completeFilter cid uid) = none →
       complete_consultation db cid uid "doctor" now =
         (CompleteResult.notFoundOrUnauthorized, db) ∧
       completeStatus CompleteResult.notFoundOrUnauthorized = 404) ∧
    (∀ c, db.consultations.find? (completeFilter cid uid) = some c →
       completePatch now c ≠ c →
       ∃ l1 l2, db.consultations = l1 ++ c :: l2 ∧
         complete_consultation db cid uid "doctor" now =
           (CompleteResult.ok,
            { db with consultations := l1 ++ completePatch now c :: l2 })) := by
  constructor
  · intro hnone
    refine ⟨?_, rfl⟩
    unfold complete_consultation
    rw [if_neg (by simp), hnone,
      updateFirst_of_find?_eq_none (completeFilter cid uid) (completePatch now)
        db.consultations hnone]
    rfl
  · intro c hsome hne
    obtain ⟨l1, l2, hl, -, hu⟩ :=
      find?_decomp (completeFilter cid uid) (completePatch now) db.consultations c hsome
    refine ⟨l1, l2, hl, ?_⟩
    unfold complete_consultation
    rw [if_neg (by simp), hsome, hu]
    simp [hne]

/-- Witness for C3: a non-matching id yields NotFoundOrUnauthorized with the
store unchanged; the matching consultation gets completed with the call time. -/
theorem C3_complete_requires_compound_match_witness :
    (complete_consultation consDB "nope" "d1" "doctor" 7 =
       (CompleteResult.notFoundOrUnauthorized, consDB) ∧
     completeStatus CompleteResult.notFoundOrUnauthorized = 404) ∧
    ∃ l1 l2, consDB.consultations = l1 ++ consActive :: l2 ∧
      complete_consultation consDB "c1" "d1" "doctor" 7 =
        (CompleteResult.ok,
         { consDB with consultations := l1 ++ completePatch 7 consActive :: l2 }) :=
  ⟨(C3_complete_requires_compound_match consDB "nope" "d1" 7).1 rfl,
   (C3_complete_requires_compound_match consDB "c1" "d1" 7).2 consActive rfl (by decide)⟩

/-- C10: UpdateNotes has no precondition on the consultation's status: for any
existing consultation — in particular a completed one — a caller who is the
bound doctor with role doctor, or the bound patient with role patient,
succeeds, and the stored notes become the request value, the empty string when
the body has no `notes` key. -/
theorem C10_notes_ignore_status (db : DB) (cid uid role : String)
    (body : Option String) (c : Consultation)
    (hfind : db.consultations.find? (fun x => x.id == cid) = some c)
    (hauth : (role = "doctor" ∧ uid = c.doctor_id) ∨
             (role = "patient" ∧ uid = c.patient_id)) :
    ∃ l1 l2, db.consultations = l1 ++ c :: l2 ∧
      (update_consultation_notes db cid uid role body).1 = NotesResult.ok ∧
      (update_consultation_notes db cid uid role body).2.consultations =
        l1 ++ { c with notes := body.getD "" } :: l2 ∧
      (body = none → ({ c with notes := body.getD "" } : Consultation).notes = "") := by
  have h1 : ¬(role = "doctor" ∧ c.doctor_id ≠ uid) := by
    rcases hauth with ⟨hr, he⟩ | ⟨hr, he⟩
    · rintro ⟨-, hne⟩; exact hne he.symm
    · rintro ⟨hd, -⟩; rw [hr] at hd; exact absurd hd (by decide)
  have h2 : ¬(role = "patient" ∧ c.patient_id ≠ uid) := by
    rcases hauth with ⟨hr, he⟩ | ⟨hr, he⟩
    · rintro ⟨hp, -⟩; rw [hr] at hp; exact absurd hp (by decide)
    · rintro ⟨-, hne⟩; exact hne he.symm
  obtain ⟨l1, l2, hl, -, hu⟩ :=
    find?_decomp (fun x => x.id == cid) (fun x => { x with notes := body.getD "" })
      db.consultations c hfind
  have hres : update_consultation_notes db cid uid role body =
      (NotesResult.ok,
       { db with consultations := l1 ++ { c with notes := body.getD "" } :: l2 }) := by
    simp only [update_consultation_notes, hfind]
    rw [if_neg h1, if_neg h2]
    simp only [hu]
  exact ⟨l1, l2, hl, by rw [hres], by rw [hres], fun hb => by subst hb; rfl⟩

/-- Witness for C10: the bound doctor updates a completed consultation with a
body lacking the `notes` key; the call succeeds and the stored notes become
the empty string. -/
theorem C10_notes_ignore_status_witness :
    ∃ l1 l2, consDB.consultations = l1 ++ consCompleted :: l2 ∧
      (update_consultation_notes consDB "c2" "d1" "doctor" none).1 = NotesResult.ok ∧
      (update_consultation_notes consDB "c2" "d1" "doctor" none).2.consultations =
        l1 ++ { consCompleted with notes := (none : Option String).getD "" } :: l2 ∧
      ((none : Option String) = none →
        ({ consCompleted with notes := (none : Option String).getD "" } :
          Consultation).notes = "") :=
  C10_notes_ignore_status consDB "c2" "d1" "doctor" none consCompleted rfl
    (Or.inl ⟨rfl, rfl⟩)

/-- C5: on the Resume path, with the consultation's `authorized_users` equal to
its two bound party ids (invariant I2, exactly what the create path stores),
access is granted iff the caller's id is a member of `authorized_users`; every
denial appends exactly one audit record with fields
{event = unauthorized_consultation_access, user id, role, consultation id,
timestamp} to `security_logs` and returns Forbidden (403), touching nothing
else in the store. -/
theorem C5_resume_authorization_gate (db : DB) (cid uid role : String) (now : Int)
    (newId : String) (c : Consultation)
    (hfind : db.consultations.find? (fun x => x.id == cid) = some c)
    (hI2 : c.authorized_users = [c.doctor_id, c.patient_id]) :
    (uid ∉ c.authorized_users →
       join_consultation db cid uid role now newId =
         (JoinResult.forbiddenResume,
          { db with security_logs := db.security_logs ++
              [{ event := "unauthorized_consultation_access", user_id := uid,
                 user_role := role, consultation_id := cid, timestamp := now }] }) ∧
       joinStatus JoinResult.forbiddenResume = 403) ∧
    (uid ∈ c.authorized_users →
       (join_consultation db cid uid role now newId).1 ≠ JoinResult.forbiddenResume ∧
       (join_consultation db cid uid role now newId).2.security_logs =
         db.security_logs) := by
  have hmem : uid ∈ c.authorized_users ↔ uid ∈ [c.patient_id, c.doctor_id] := by
    rw [hI2]; simp [or_comm]
  constructor
  · intro hno
    have hno' : uid ∉ [c.patient_id, c.doctor_id] := fun hm => hno (hmem.mpr hm)
    refine ⟨?_, rfl⟩
    simp only [join_consultation, hfind]
    rw [if_pos hno']
  · intro hyes
    have hyes' : uid ∈ [c.patient_id, c.doctor_id] := hmem.mp hyes
    simp only [join_consultation, hfind]
    rw [if_neg (not_not_intro hyes')]
    by_cases hst : c.status ≠ "active"
    · rw [if_pos hst]
      exact ⟨by simp, rfl⟩
    · rw [if_neg hst]
      by_cases hvc : pyTruthy c.video_call_id <;> simp [hvc]

/-- Witness for C5: a third-party id with role admin is denied on resume and
exactly one audit record is appended. -/
theorem C5_resume_authorization_gate_witness :
    join_consultation consDB "c1" "x9" "admin" 5 "n1" =
      (JoinResult.forbiddenResume,
       { consDB with security_logs := consDB.security_logs ++
           [{ event := "unauthorized_consultation_access", user_id := "x9",
              user_role := "admin", consultation_id := "c1", timestamp := 5 }] }) ∧
    joinStatus JoinResult.forbiddenResume = 403 :=
  (C5_resume_authorization_gate consDB "c1" "x9" "admin" 5 "n1" consActive rfl rfl).1
    (by decide)

/-- The appointment of the C1 scenario: confirmed, non-immediate, scheduled at
the current time, no consultation yet. -/
def apptA1 : Appointment :=
  { id := "a1", patient_id := "p1", doctor_id := "d1", doctor_name := "Dr",
    patient_name := "Pat", appointment_date := 0, status := "confirmed",
    is_immediate := false, consultation_type := some "video", video_call_id := none,
    consultation_id := none, last_updated := none }

/-- The C1 scenario store: just the appointment `a1`. -/
def dbA1 : DB := { appointments := [apptA1], consultations := [], security_logs := [] }

/-- The consultation the first C1 join creates. -/
def consC0001 : Consultation :=
  { id := "c0001", appointment_id := "a1", patient_id := "p1", doctor_id := "d1",
    doctor_name := "Dr", patient_name := "Pat", scheduled_time := 0, start_time := 0,
    end_time := none, status := "active", notes := "", consultation_type := "video",
    video_call_id := some "call_a1", is_immediate := false,
    authorized_users := ["d1", "p1"], completed_at := none }

/-- The appointment after the first C1 join stamped it. -/
def apptA1Stamped : Appointment :=
  { apptA1 with video_call_id := some "call_a1", consultation_id := some "c0001",
                last_updated := some 0 }

/-- The store after the first C1 join. -/
def dbA1' : DB :=
  { appointments := [apptA1Stamped], consultations := [consC0001], security_logs := [] }

/-- C1 failing input: a first Join with appointment id `a1` by the doctor
succeeds (201, consultation `c0001`); a second Join with the same appointment
id `a1` by the bound patient does not resume: the lookup by `_id = a1` in
`consultations` misses (the created document's id is the fresh `c0001`, never
`a1`), so the Create path runs again, returns 201 with a different consultation
id `c0002`, and a second consultation document for the same appointment is
inserted — contradicting the claimed 200-resume with the same consultation id
(the `video_call_id` does coincide, both `call_a1`). -/
theorem C1_second_join_with_appointment_id_duplicates :
    (join_consultation dbA1 "a1" "d1" "doctor" 0 "c0001").1 =
      JoinResult.created "c0001" "call_a1" "video" false "p1" "d1" "doctor" ∧
    (join_consultation ((join_consultation dbA1 "a1" "d1" "doctor" 0 "c0001").2)
        "a1" "p1" "patient" 0 "c0002").1 =
      JoinResult.created "c0002" "call_a1" "video" false "p1" "d1" "patient" ∧
    joinStatus
      (JoinResult.created "c0002" "call_a1" "video" false "p1" "d1" "patient") = 201 ∧
    ((join_consultation ((join_consultation dbA1 "a1" "d1" "doctor" 0 "c0001").2)
        "a1" "p1" "patient" 0 "c0002").2.consultations.map
      (fun c => (c.id, c.appointment_id))) = [("c0001", "a1"), ("c0002", "a1")] := by
  have h1 : join_consultation dbA1 "a1" "d1" "doctor" 0 "c0001" =
      (JoinResult.created "c0001" "call_a1" "video" false "p1" "d1" "doctor", dbA1') := by
    simp only [join_consultation, dbA1, apptA1]
    norm_num [outside_window, time_diff_minutes, pyTruthy, updateFirst, List.find?,
      dbA1', apptA1Stamped, consC0001, apptA1]
    simp
  rw [h1]
  simp only [join_consultation, dbA1', apptA1Stamped, consC0001, apptA1]
  norm_num [outside_window, time_diff_minutes, pyTruthy, updateFirst, List.find?]
  simp [joinStatus]

/-! ### Lemmas for the video-call-id claims -/

/-- The video call id carried by a successful join response. -/
def joinVideoCallId : JoinResult → Option String
  | .created _ v _ _ _ _ _ => some v
  | .resumed _ v _ _ _ _ _ _ _ => some v
  | _ => none

theorem pyTruthy_iff (o : Option String) :
    pyTruthy o = true ↔ ∃ s, o = some s ∧ s ≠ "" := by
  cases o <;> simp [pyTruthy]

theorem call_prefix_ne_empty (s : String) : "call_" ++ s ≠ "" := by
  intro h
  have h2 := congrArg String.length h
  rw [String.length_append] at h2
  have h5 : ("call_" : String).length = 5 := rfl
  have h0 : ("" : String).length = 0 := rfl
  rw [h5, h0] at h2
  omega

theorem find?_append {α : Type} (p : α → Bool) :
    ∀ l1 l2 : List α, (l1 ++ l2).find? p =
      ((l1.find? p).orElse fun _ => l2.find? p) := by
  intro l1 l2
  induction l1 with
  | nil => simp
  | cons x xs ih =>
    by_cases hp : p x
    · simp [List.find?_cons, hp]
    · simp only [List.cons_append, List.find?_cons, hp]
      simpa [hp] using ih

theorem mem_updateFirst {α : Type} (p : α → Bool) (f : α → α) :
    ∀ (l : List α), ∀ x ∈ updateFirst p f l, x ∈ l ∨ ∃ y, y ∈ l ∧ x = f y := by
  intro l
  induction l with
  | nil => intro x hx; simp [updateFirst] at hx
  | cons z zs ih =>
    intro x hx
    by_cases hp : p z
    · simp only [updateFirst, if_pos hp] at hx
      rcases List.mem_cons.mp hx with rfl | hx
      · exact Or.inr ⟨z, List.mem_cons_self z zs, rfl⟩
      · exact Or.inl (List.mem_cons_of_mem z hx)
    · simp only [updateFirst, if_neg hp] at hx
      rcases List.mem_cons.mp hx with rfl | hx
      · exact Or.inl (List.mem_cons_self x zs)
      · rcases ih x hx with hm | ⟨y, hy, hxy⟩
        · exact Or.inl (List.mem_cons_of_mem z hm)
        · exact Or.inr ⟨y, List.mem_cons_of_mem z hy, hxy⟩

/-- Inversion of a successful Create-path join: what a `created` response
implies about the pre- and post-states. -/
theorem join_created_inv (db : DB) (cid uid role : String) (now : Int)
    (newId : String) (i v t : String) (b : Bool) (p d ur : String) (db' : DB)
    (h : join_consultation db cid uid role now newId =
          (JoinResult.created i v t b p d ur, db')) :
    ∃ a : Appointment,
      db.consultations.find? (fun x => x.id == cid) = none ∧
      db.appointments.find? (fun x => x.id == cid) = some a ∧
      a.id = cid ∧ a.status = "confirmed" ∧ i = newId ∧
      v = (if pyTruthy a.video_call_id then a.video_call_id.getD ""
           else "call_" ++ a.id) ∧
      v ≠ "" ∧
      (∃ cd : Consultation, db'.consultations = db.consultations ++ [cd] ∧
        cd.id = newId ∧ cd.video_call_id = some v) ∧
      db'.appointments =
        updateFirst (fun x => x.id == a.id)
          (fun x => { x with consultation_id := some newId, last_updated := some now })
          (if pyTruthy a.video_call_id then db.appointments
           else updateFirst (fun x => x.id == a.id)
                  (fun x => { x with video_call_id := some v }) db.appointments) ∧
      db'.security_logs = db.security_logs := by
  simp only [join_consultation] at h
  split at h
  · split at h
    · simp at h
    · rename_i s1 hnone s2 appt hfind
      by_cases h1 : appt.status ≠ "confirmed"
      · rw [if_pos h1] at h; simp at h
      · rw [if_neg h1] at h
        by_cases h2 : (role = "doctor" ∧ uid ≠ appt.doctor_id ∨
            role = "patient" ∧ uid ≠ appt.patient_id)
        · rw [if_pos h2] at h; simp at h
        · rw [if_neg h2] at h
          by_cases h3 : outside_window appt.appointment_date now appt.is_immediate
          · rw [if_pos h3] at h; simp at h
          · rw [if_neg h3] at h
            by_cases hvc : pyTruthy appt.video_call_id = true
            · simp only [hvc, if_true] at h
              simp only [Prod.mk.injEq, JoinResult.created.injEq] at h
              obtain ⟨⟨hi, hv, ht, hb, hp, hd, hur⟩, hdb⟩ := h
              refine ⟨appt, hnone, hfind, ?_, not_not.mp h1, hi.symm,
                ?_, ?_, ?_, ?_, ?_⟩
              · have := List.find?_some hfind
                simpa using this
              · rw [if_pos hvc]; exact hv.symm
              · obtain ⟨s, hs, hne⟩ := (pyTruthy_iff _).mp hvc
                rw [← hv, hs]
                simpa using hne
              · exact ⟨_, by rw [← hdb], rfl, by rw [← hv]⟩
              · rw [if_pos hvc, ← hdb]
              · rw [← hdb]
            · rw [Bool.not_eq_true] at hvc
              simp only [hvc, Bool.false_eq_true, if_false] at h
              simp only [Prod.mk.injEq, JoinResult.created.injEq] at h
              obtain ⟨⟨hi, hv, ht, hb, hp, hd, hur⟩, hdb⟩ := h
              have hvc' : ¬ pyTruthy appt.video_call_id = true := by
                rw [hvc]; simp
              refine ⟨appt, hnone, hfind, ?_, not_not.mp h1, hi.symm,
                ?_, ?_, ?_, ?_, ?_⟩
              · have := List.find?_some hfind
                simpa using this
              · rw [if_neg hvc']; exact hv.symm
              · rw [← hv]
                exact call_prefix_ne_empty appt.id
              · exact ⟨_, by rw [← hdb], rfl, by rw [← hv]⟩
              · rw [if_neg hvc', ← hv, ← hdb]
              · rw [← hdb]
  · split_ifs at h <;> simp at h

/-- A `resumed` response can only arise when the lookup in `consultations`
found a document. -/
theorem join_resumed_inv (db : DB) (cid uid role : String) (now : Int)
    (newId : String) (i v t : String) (st sc : Int) (b : Bool) (p d ur : String)
    (db' : DB)
    (h : join_consultation db cid uid role now newId =
          (JoinResult.resumed i v t st sc b p d ur, db')) :
    ∃ c : Consultation, db.consultations.find? (fun x => x.id == cid) = some c := by
  simp only [join_consultation] at h
  split at h
  · split at h
    · simp at h
    · rename_i s1 hnone s2 appt hfind
      by_cases h1 : appt.status ≠ "confirmed"
      · rw [if_pos h1] at h; simp at h
      · rw [if_neg h1] at h
        by_cases h2 : (role = "doctor" ∧ uid ≠ appt.doctor_id ∨
            role = "patient" ∧ uid ≠ appt.patient_id)
        · rw [if_pos h2] at h; simp at h
        · rw [if_neg h2] at h
          by_cases h3 : outside_window appt.appointment_date now appt.is_immediate
          · rw [if_pos h3] at h; simp at h
          · rw [if_neg h3] at h; simp at h
  · rename_i s1 c hfind
    exact ⟨c, hfind⟩

/-- Resume path, video id already assigned: the store's consultations are
untouched and the response carries exactly the stored video id. -/
theorem join_resume_uses_existing (db : DB) (cid uid role : String) (now : Int)
    (newId : String) (c : Consultation)
    (hfind : db.consultations.find? (fun x => x.id == cid) = some c)
    (hvc : pyTruthy c.video_call_id = true) :
    (join_consultation db cid uid role now newId).2.consultations =
      db.consultations ∧
    ∀ v, joinVideoCallId (join_consultation db cid uid role now newId).1 = some v →
      c.video_call_id = some v := by
  obtain ⟨s, hs, hne⟩ := (pyTruthy_iff _).mp hvc
  constructor
  · simp only [join_consultation, hfind]
    by_cases hmem : uid ∉ [c.patient_id, c.doctor_id]
    · rw [if_pos hmem]
    · rw [if_neg hmem]
      by_cases hst : c.status ≠ "active"
      · rw [if_pos hst]
      · rw [if_neg hst, if_pos hvc, if_pos hvc]
  · intro v hv
    simp only [join_consultation, hfind] at hv
    by_cases hmem : uid ∉ [c.patient_id, c.doctor_id]
    · rw [if_pos hmem] at hv
      simp [joinVideoCallId] at hv
    · rw [if_neg hmem] at hv
      by_cases hst : c.status ≠ "active"
      · rw [if_pos hst] at hv
        simp [joinVideoCallId] at hv
      · rw [if_neg hst, if_pos hvc] at hv
        simp only [joinVideoCallId, Option.some.injEq] at hv
        rw [hs] at hv
        simp only [Option.getD_some] at hv
        rw [hs]
        exact congrArg some hv

/-- Create path, video id already assigned on the appointment: every stored
appointment keeps its id and video id, and a successful response carries
exactly the appointment's stored video id. -/
theorem join_create_uses_existing (db : DB) (cid uid role : String) (now : Int)
    (newId : String) (a : Appointment)
    (hnone : db.consultations.find? (fun x => x.id == cid) = none)
    (hfind : db.appointments.find? (fun x => x.id == cid) = some a)
    (hvc : pyTruthy a.video_call_id = true) :
    (∀ x ∈ (join_consultation db cid uid role now newId).2.appointments,
       ∃ y ∈ db.appointments, x.id = y.id ∧ x.video_call_id = y.video_call_id) ∧
    ∀ v, joinVideoCallId (join_consultation db cid uid role now newId).1 = some v →
      a.video_call_id = some v := by
  obtain ⟨s, hs, hne⟩ := (pyTruthy_iff _).mp hvc
  constructor
  · intro x hx
    simp only [join_consultation, hfind, hnone] at hx
    by_cases h1 : a.status ≠ "confirmed"
    · rw [if_pos h1] at hx
      exact ⟨x, hx, rfl, rfl⟩
    · rw [if_neg h1] at hx
      by_cases h2 : (role = "doctor" ∧ uid ≠ a.doctor_id ∨
          role = "patient" ∧ uid ≠ a.patient_id)
      · rw [if_pos h2] at hx
        exact ⟨x, hx, rfl, rfl⟩
      · rw [if_neg h2] at hx
        by_cases h3 : outside_window a.appointment_date now a.is_immediate
        · rw [if_pos h3] at hx
          exact ⟨x, hx, rfl, rfl⟩
        · rw [if_neg h3, if_pos hvc, if_pos hvc] at hx
          rcases mem_updateFirst _ _ db.appointments x hx with hm | ⟨y, hy, hxy⟩
          · exact ⟨x, hm, rfl, rfl⟩
          · exact ⟨y, hy, by rw [hxy], by rw [hxy]⟩
  · intro v hv
    simp only [join_consultation, hfind, hnone] at hv
    by_cases h1 : a.status ≠ "confirmed"
    · rw [if_pos h1] at hv
      simp [joinVideoCallId] at hv
    · rw [if_neg h1] at hv
      by_cases h2 : (role = "doctor" ∧ uid ≠ a.doctor_id ∨
          role = "patient" ∧ uid ≠ a.patient_id)
      · rw [if_pos h2] at hv
        simp [joinVideoCallId] at hv
      · rw [if_neg h2] at hv
        by_cases h3 : outside_window a.appointment_date now a.is_immediate
        · rw [if_pos h3] at hv
          simp [joinVideoCallId] at hv
        · rw [if_neg h3, if_pos hvc] at hv
          simp only [joinVideoCallId, Option.some.injEq] at hv
          rw [hs] at hv
          simp only [Option.getD_some] at hv
          rw [hs]
          exact congrArg some hv

/-- Two successive Joins with the same appointment id yield the same video
call id, provided the generated consultation id differs from the appointment
id (Mongo's fresh ObjectId never equals a pre-existing appointment id). -/
theorem join_twice_same_video_id (db : DB) (cid u1 r1 : String) (now1 : Int)
    (newId : String) (i1 v1 t1 : String) (b1 : Bool) (p1 d1 ur1 : String)
    (db1 : DB)
    (h1 : join_consultation db cid u1 r1 now1 newId =
           (JoinResult.created i1 v1 t1 b1 p1 d1 ur1, db1))
    (hne : newId ≠ cid) (u2 r2 : String) (now2 : Int) (newId2 : String)
    (v2 : String)
    (hv2 : joinVideoCallId (join_consultation db1 cid u2 r2 now2 newId2).1 =
            some v2) :
    v2 = v1 := by
  obtain ⟨a, hnone, hfind, haid, hstat, hi, hveq, hvne,
    ⟨cd, hcons, hcdid, hcdv⟩, happs, hlogs⟩ :=
    join_created_inv db cid u1 r1 now1 newId i1 v1 t1 b1 p1 d1 ur1 db1 h1
  have hbeq : (newId == cid) = false := beq_eq_false_iff_ne.mpr hne
  have hnone1 : db1.consultations.find? (fun x => x.id == cid) = none := by
    rw [hcons, find?_append, hnone]
    simp [List.find?, hcdid, hbeq]
  have hfind1 : ∃ a', db1.appointments.find? (fun x => x.id == cid) = some a' ∧
      a'.video_call_id = some v1 := by
    rw [happs, haid]
    by_cases hvc : pyTruthy a.video_call_id = true
    · rw [if_pos hvc]
      rw [find?_updateFirst]
      · rw [hfind]
        refine ⟨_, rfl, ?_⟩
        obtain ⟨s, hs, hsne⟩ := (pyTruthy_iff _).mp hvc
        rw [if_pos hvc, hs] at hveq
        simp only [Option.getD_some] at hveq
        show a.video_call_id = some v1
        rw [hs, hveq]
      · intro x; rfl
    · rw [if_neg hvc]
      rw [find?_updateFirst]
      · rw [find?_updateFirst]
        · rw [hfind]
          exact ⟨_, rfl, rfl⟩
        · intro x; rfl
      · intro x; rfl
  obtain ⟨a', hfa', hva'⟩ := hfind1
  rcases hj2 : join_consultation db1 cid u2 r2 now2 newId2 with ⟨res2, db2⟩
  rw [hj2] at hv2
  cases res2 with
  | notFound => simp [joinVideoCallId] at hv2
  | notReady s => simp [joinVideoCallId] at hv2
  | forbiddenCreate => simp [joinVideoCallId] at hv2
  | outsideWindow x y z => simp [joinVideoCallId] at hv2
  | forbiddenResume => simp [joinVideoCallId] at hv2
  | notActive s e => simp [joinVideoCallId] at hv2
  | resumed f1 f2 f3 f4 f5 f6 f7 f8 f9 =>
    obtain ⟨c2, hc2⟩ :=
      join_resumed_inv db1 cid u2 r2 now2 newId2 f1 f2 f3 f4 f5 f6 f7 f8 f9 db2 hj2
    rw [hnone1] at hc2
    simp at hc2
  | created g1 g2 g3 g4 g5 g6 g7 =>
    simp only [joinVideoCallId, Option.some.injEq] at hv2
    obtain ⟨a2, hnone2, hfind2, haid2, hstat2, hi2, hveq2, hvne2, hcd2, happs2,
      hlogs2⟩ :=
      join_created_inv db1 cid u2 r2 now2 newId2 g1 g2 g3 g4 g5 g6 g7 db2 hj2
    rw [hfa'] at hfind2
    obtain rfl : a' = a2 := by injection hfind2
    have hvc2 : pyTruthy a'.video_call_id = true :=
      (pyTruthy_iff _).mpr ⟨v1, hva', hvne⟩
    rw [if_pos hvc2, hva'] at hveq2
    simp only [Option.getD_some] at hveq2
    rw [← hv2, hveq2]

/-- C7: a `video_call_id`, once assigned, is never changed by any Join: on the
Resume path with the id present the consultations are untouched and the
response carries exactly the stored value; on the Create path with the
appointment's id present every stored appointment keeps its video id and the
response carries exactly the stored value; and two successive Joins with the
same appointment id (the generated consultation id being fresh, i.e. distinct
from the appointment id) yield the same `video_call_id` both times. -/
theorem C7_video_call_id_immutable :
    (∀ (db : DB) (cid uid role : String) (now : Int) (newId : String)
       (c : Consultation),
       db.consultations.find? (fun x => x.id == cid) = some c →
       pyTruthy c.video_call_id = true →
       (join_consultation db cid uid role now newId).2.consultations =
         db.consultations ∧
       ∀ v, joinVideoCallId (join_consultation db cid uid role now newId).1 =
           some v → c.video_call_id = some v) ∧
    (∀ (db : DB) (cid uid role : String) (now : Int) (newId : String)
       (a : Appointment),
       db.consultations.find? (fun x => x.id == cid) = none →
       db.appointments.find? (fun x => x.id == cid) = some a →
       pyTruthy a.video_call_id = true →
       (∀ x ∈ (join_consultation db cid uid role now newId).2.appointments,
          ∃ y ∈ db.appointments, x.id = y.id ∧ x.video_call_id = y.video_call_id) ∧
       ∀ v, joinVideoCallId (join_consultation db cid uid role now newId).1 =
           some v → a.video_call_id = some v) ∧
    (∀ (db : DB) (cid u1 r1 : String) (now1 : Int) (newId i1 v1 t1 : String)
       (b1 : Bool) (p1 d1 ur1 : String) (db1 : DB),
       join_consultation db cid u1 r1 now1 newId =
         (JoinResult.created i1 v1 t1 b1 p1 d1 ur1, db1) →
       newId ≠ cid →
       ∀ (u2 r2 : String) (now2 : Int) (newId2 v2 : String),
         joinVideoCallId (join_consultation db1 cid u2 r2 now2 newId2).1 =
           some v2 → v2 = v1) :=
  ⟨fun db cid uid role now newId c hfind hvc =>
     join_resume_uses_existing db cid uid role now newId c hfind hvc,
   fun db cid uid role now newId a hnone hfind hvc =>
     join_create_uses_existing db cid uid role now newId a hnone hfind hvc,
   fun db cid u1 r1 now1 newId i1 v1 t1 b1 p1 d1 ur1 db1 h1 hne u2 r2 now2
       newId2 v2 hv2 =>
     join_twice_same_video_id db cid u1 r1 now1 newId i1 v1 t1 b1 p1 d1 ur1
       db1 h1 hne u2 r2 now2 newId2 v2 hv2⟩

/-- The C1 appointment made immediate, for kernel-computable joins. -/
def apptImm : Appointment := { apptA1 with is_immediate := true }

/-- Store with just the immediate appointment. -/
def dbImm : DB := { appointments := [apptImm], consultations := [], security_logs := [] }

/-- Witness for C7: resuming the active consultation (video id `call_a1`
present) leaves the consultations untouched and returns the stored id; and two
successive Joins with appointment id `a1` both return `call_a1`. -/
theorem C7_video_call_id_immutable_witness :
    ((join_consultation consDB "c1" "p1" "patient" 5 "nX").2.consultations =
       consDB.consultations ∧
     ∀ v, joinVideoCallId (join_consultation consDB "c1" "p1" "patient" 5 "nX").1 =
         some v → consActive.video_call_id = some v) ∧
    ("call_a1" : String) = "call_a1" :=
  ⟨C7_video_call_id_immutable.1 consDB "c1" "p1" "patient" 5 "nX" consActive
     rfl rfl,
   C7_video_call_id_immutable.2.2 dbImm "a1" "d1" "doctor" 0 "c0001" "c0001"
     "call_a1" "video" true "p1" "d1" "doctor"
     (join_consultation dbImm "a1" "d1" "doctor" 0 "c0001").2 rfl (by decide)
     "p1" "patient" 0 "c0002" "call_a1" rfl⟩

end Doceasy
